import Mathlib

/-!
Shallow embedding of the license server in `src/main.py` (FastAPI + SQLAlchemy,
sequential request semantics).  Instants (`datetime`) are modelled as integers;
`timedelta(seconds=d)` is addition of `d`.  The SQLite tables are modelled as
lists kept in insertion (rowid) order, with the autoincrement primary keys made
explicit (`nextLicenseId`, `nextActivationId`).  A raised `HTTPException`
becomes an `Except.error` carrying the status code and detail string; since the
per-request session is discarded without commit on a raise, every handler is
modelled as returning both the outcome and the resulting store, the store being
unchanged on every error path (which the code guarantees by raising before any
mutation).
-/

namespace LicenseServer

/-- One row of the `licenses` table (`class License` in `src/main.py`). -/
structure License where
  id : Nat
  license_id : String
  key_hash : String
  duration_seconds : Int
  first_activation_at : Option Int
  expires_at : Option Int
  /-- Legacy "last seen machine" column. -/
  machine_fingerprint : Option String
  active : Bool
  max_seats : Int
  used_seats : Int
deriving DecidableEq, Repr

/-- One row of the `activations` table (`class Activation` in `src/main.py`). -/
structure Activation where
  id : Nat
  license_db_id : Nat
  machine_fingerprint : String
  activated_at : Int
deriving DecidableEq, Repr

/-- The persistent database state: both tables plus the autoincrement
counters for their integer primary keys. -/
structure Store where
  nextLicenseId : Nat
  nextActivationId : Nat
  licenses : List License
  activations : List Activation
deriving DecidableEq, Repr

/-- The empty database produced by `Base.metadata.create_all`. -/
def initStore : Store :=
  { nextLicenseId := 1, nextActivationId := 1, licenses := [], activations := [] }

/-- A raised `HTTPException(status_code, detail)`. -/
structure HttpError where
  status : Nat
  detail : String
deriving DecidableEq, Repr

/-- `ActivateResponse` pydantic schema. -/
structure ActivateResponse where
  ok : Bool
  message : String
  expires_at : Option Int
  duration_seconds : Int
  max_seats : Option Int
  used_seats : Option Int
deriving DecidableEq, Repr

/-- `LicenseCreate` request payload. -/
structure LicenseCreate where
  license_id : String
  raw_key : String
  duration_seconds : Int
  max_seats : Int
deriving DecidableEq, Repr

/-- `ActivateRequest` request payload. -/
structure ActivateRequest where
  license_id : String
  raw_key : String
  machine_fingerprint : String
deriving DecidableEq, Repr

/-- `hash_key` in `src/main.py` is `hashlib.sha256(raw_key).hexdigest()`.  The
digest is modelled abstractly as an injective tagging of the key: every claim
depends only on the digest being a fixed deterministic function of the raw key
(stored at creation, recomputed and compared at activation), never on any
cryptographic property of SHA-256. -/
def hash_key (raw_key : String) : String := "sha256:" ++ raw_key

/-- `db.query(License).filter_by(license_id=lid).first()`. -/
def findLicense (s : Store) (lid : String) : Option License :=
  s.licenses.find? (fun l => decide (l.license_id = lid))

/-- `db.query(Activation).filter_by(license_db_id=dbId).count()`: the derived
seat count, always recomputed from the authoritative `activations` rows. -/
def countActs (s : Store) (dbId : Nat) : Nat :=
  (s.activations.filter (fun a => decide (a.license_db_id = dbId))).length

/-- `db.query(Activation).filter_by(license_db_id=dbId, machine_fingerprint=fp).first()`. -/
def findAct (s : Store) (dbId : Nat) (fp : String) : Option Activation :=
  s.activations.find? (fun a => decide (a.license_db_id = dbId ∧ a.machine_fingerprint = fp))

def errUnknownOrInactive : HttpError := ⟨400, "Unknown or inactive license"⟩
def errInvalidKey : HttpError := ⟨400, "Invalid key for this License ID"⟩
def errExpired : HttpError := ⟨400, "License expired"⟩
def errSeats : HttpError := ⟨400, "Max seats reached for this License ID"⟩
def errMaxSeats : HttpError := ⟨400, "max_seats must be positive"⟩
def errDuration : HttpError := ⟨400, "duration_seconds must be >= 0"⟩
def errDuplicate : HttpError := ⟨400, "License ID already exists"⟩

/-- `POST /admin/create` (`admin_create_license` in `src/main.py`). -/
def admin_create_license (s : Store) (payload : LicenseCreate) :
    Except HttpError ActivateResponse × Store :=
  if payload.max_seats ≤ 0 then (.error errMaxSeats, s)
  else if payload.duration_seconds < 0 then (.error errDuration, s)
  else if (findLicense s payload.license_id).isSome then (.error errDuplicate, s)
  else
    let lic : License :=
      { id := s.nextLicenseId
        license_id := payload.license_id
        key_hash := hash_key payload.raw_key
        duration_seconds := payload.duration_seconds
        first_activation_at := none
        expires_at := none
        machine_fingerprint := none
        active := true
        max_seats := payload.max_seats
        used_seats := 0 }
    let s' : Store :=
      { s with licenses := s.licenses ++ [lic], nextLicenseId := s.nextLicenseId + 1 }
    (.ok
      { ok := true
        message := "License created (max_seats=" ++ toString lic.max_seats ++ ")"
        expires_at := none
        duration_seconds := lic.duration_seconds
        max_seats := some lic.max_seats
        used_seats := some 0 }, s')

/-- `lic.expires_at is not None and lic.expires_at <= now`. -/
def expiredAt (l : License) (now : Int) : Bool :=
  match l.expires_at with
  | none => false
  | some e => decide (e ≤ now)

/-- Lines 210–215 of `src/main.py`: on the first seat ever consumed
(`first_activation_at is None`), stamp `first_activation_at = now` and compute
the expiry window (`None` when perpetual, else `now + duration_seconds`);
otherwise leave the license untouched. -/
def firstActivationUpdate (lic : License) (now : Int) : License :=
  if lic.first_activation_at = none then
    { lic with
      first_activation_at := some now
      expires_at :=
        if lic.duration_seconds = 0 then none
        else some (now + lic.duration_seconds) }
  else lic

/-- Lines 218–229 of `src/main.py` applied to the loaded license row: the
first-activation update, then the legacy `machine_fingerprint` column and the
cached `used_seats` column (set to the derived count plus one). -/
def consumeSeatUpdate (lic : License) (fp : String) (used : Nat) (now : Int) : License :=
  { firstActivationUpdate lic now with
    machine_fingerprint := some fp
    used_seats := (used : Int) + 1 }

/-- `POST /activate` (`activate` in `src/main.py`), at wall-clock time `now`.
Mirrors the handler line by line: load by `license_id` (unknown and inactive
share one combined raise), key check, expiry check, idempotent existing-seat
lookup, derived seat count against `max_seats`, first-activation expiry
computation, insert of the `Activation` row, update of the legacy
`machine_fingerprint` and cached `used_seats` columns, commit. -/
def activate (s : Store) (payload : ActivateRequest) (now : Int) :
    Except HttpError ActivateResponse × Store :=
  match findLicense s payload.license_id with
  | none => (.error errUnknownOrInactive, s)
  | some lic =>
    if lic.active = false then (.error errUnknownOrInactive, s)
    else if lic.key_hash ≠ hash_key payload.raw_key then (.error errInvalidKey, s)
    else if expiredAt lic now then (.error errExpired, s)
    else if (findAct s lic.id payload.machine_fingerprint).isSome then
      (.ok
        { ok := true
          message := "Already activated on this machine"
          expires_at := lic.expires_at
          duration_seconds := lic.duration_seconds
          max_seats := some lic.max_seats
          used_seats := some ((countActs s lic.id : Int)) }, s)
    else
      let used_seats : Nat := countActs s lic.id
      if lic.max_seats ≤ (used_seats : Int) then (.error errSeats, s)
      else
        let lic2 : License := consumeSeatUpdate lic payload.machine_fingerprint used_seats now
        let act : Activation :=
          { id := s.nextActivationId
            license_db_id := lic.id
            machine_fingerprint := payload.machine_fingerprint
            activated_at := now }
        let s' : Store :=
          { s with
            licenses := s.licenses.map (fun l => if l.id = lic.id then lic2 else l)
            activations := s.activations ++ [act]
            nextActivationId := s.nextActivationId + 1 }
        (.ok
          { ok := true
            message := "Activated (seat " ++ toString lic2.used_seats ++ "/" ++
              toString lic2.max_seats ++ ")"
            expires_at := lic2.expires_at
            duration_seconds := lic2.duration_seconds
            max_seats := some lic2.max_seats
            used_seats := some lic2.used_seats }, s')

/-- Stores reachable from the empty database by any sequence of
`admin_create_license` and `activate` calls (sequential execution). -/
inductive Reachable : Store → Prop where
  | init : Reachable initStore
  | create (s : Store) (p : LicenseCreate) :
      Reachable s → Reachable (admin_create_license s p).2
  | act (s : Store) (p : ActivateRequest) (now : Int) :
      Reachable s → Reachable (activate s p now).2

/-- Structural well-formedness maintained by the database schema: surrogate
ids stay below the autoincrement counter and are unique, `license_id` is
unique (`unique=True` on the column), and every activation row's foreign key
references an existing license row. -/
def WFStore (s : Store) : Prop :=
  (∀ l ∈ s.licenses, l.id < s.nextLicenseId) ∧
  s.licenses.Pairwise (fun a b => a.id ≠ b.id) ∧
  s.licenses.Pairwise (fun a b => a.license_id ≠ b.license_id) ∧
  (∀ a ∈ s.activations, ∃ l ∈ s.licenses, l.id = a.license_db_id)

/-- Per-license semantic invariant: the derived activation count respects the
seat ceiling, the cached `used_seats` column agrees with the derived count,
and perpetual licenses (`duration_seconds = 0`) have no expiry. -/
def LicenseOk (s : Store) (l : License) : Prop :=
  (countActs s l.id : Int) ≤ l.max_seats ∧
  l.used_seats = (countActs s l.id : Int) ∧
  (l.duration_seconds = 0 → l.expires_at = none)

/-- The full store invariant. -/
def StoreInv (s : Store) : Prop :=
  WFStore s ∧ ∀ l ∈ s.licenses, LicenseOk s l

lemma findLicense_mem {s : Store} {lid : String} {l : License}
    (h : findLicense s lid = some l) : l ∈ s.licenses :=
  List.mem_of_find?_eq_some h

lemma findLicense_license_id {s : Store} {lid : String} {l : License}
    (h : findLicense s lid = some l) : l.license_id = lid := by
  have := List.find?_some h
  exact of_decide_eq_true this

/-- In a list of licenses with pairwise-distinct surrogate ids, two members
sharing an id are the same row. -/
lemma eq_of_mem_of_id_eq {l : List License}
    (hp : l.Pairwise (fun a b => a.id ≠ b.id))
    {x y : License} (hx : x ∈ l) (hy : y ∈ l) (hid : x.id = y.id) : x = y := by
  induction l with
  | nil => cases hx
  | cons a t ih =>
    rcases List.pairwise_cons.mp hp with ⟨hhead, htail⟩
    rcases List.mem_cons.mp hx with hx | hx <;>
      rcases List.mem_cons.mp hy with hy | hy
    · rw [hx, hy]
    · exact absurd hid (hx ▸ hhead y hy)
    · exact absurd hid.symm (hy ▸ hhead x hx)
    · exact ih htail hx hy

lemma firstActivationUpdate_fields (lic : License) (now : Int) :
    (firstActivationUpdate lic now).id = lic.id ∧
    (firstActivationUpdate lic now).license_id = lic.license_id ∧
    (firstActivationUpdate lic now).key_hash = lic.key_hash ∧
    (firstActivationUpdate lic now).duration_seconds = lic.duration_seconds ∧
    (firstActivationUpdate lic now).machine_fingerprint = lic.machine_fingerprint ∧
    (firstActivationUpdate lic now).active = lic.active ∧
    (firstActivationUpdate lic now).max_seats = lic.max_seats ∧
    (firstActivationUpdate lic now).used_seats = lic.used_seats := by
  unfold firstActivationUpdate
  split <;> exact ⟨rfl, rfl, rfl, rfl, rfl, rfl, rfl, rfl⟩

lemma consumeSeatUpdate_fields (lic : License) (fp : String) (used : Nat) (now : Int) :
    (consumeSeatUpdate lic fp used now).id = lic.id ∧
    (consumeSeatUpdate lic fp used now).license_id = lic.license_id ∧
    (consumeSeatUpdate lic fp used now).key_hash = lic.key_hash ∧
    (consumeSeatUpdate lic fp used now).duration_seconds = lic.duration_seconds ∧
    (consumeSeatUpdate lic fp used now).active = lic.active ∧
    (consumeSeatUpdate lic fp used now).max_seats = lic.max_seats ∧
    (consumeSeatUpdate lic fp used now).machine_fingerprint = some fp ∧
    (consumeSeatUpdate lic fp used now).used_seats = (used : Int) + 1 := by
  have h := firstActivationUpdate_fields lic now
  unfold consumeSeatUpdate
  exact ⟨h.1, h.2.1, h.2.2.1, h.2.2.2.1, h.2.2.2.2.2.1, h.2.2.2.2.2.2.1, rfl, rfl⟩

/-! Branch equations for the two handlers, one per short-circuit of the
per-call decision sequence. -/

lemma create_invalid_seats (s : Store) (p : LicenseCreate) (h : p.max_seats ≤ 0) :
    admin_create_license s p = (.error errMaxSeats, s) := by
  simp [admin_create_license, h]

lemma create_invalid_duration (s : Store) (p : LicenseCreate)
    (h1 : ¬ p.max_seats ≤ 0) (h2 : p.duration_seconds < 0) :
    admin_create_license s p = (.error errDuration, s) := by
  simp [admin_create_license, h1, h2]

lemma create_duplicate (s : Store) (p : LicenseCreate)
    (h1 : ¬ p.max_seats ≤ 0) (h2 : ¬ p.duration_seconds < 0)
    (h3 : (findLicense s p.license_id).isSome) :
    admin_create_license s p = (.error errDuplicate, s) := by
  simp [admin_create_license, h1, h2, h3]

/-- The license row inserted by a successful `admin_create_license`. -/
def createdLicense (s : Store) (p : LicenseCreate) : License :=
  { id := s.nextLicenseId
    license_id := p.license_id
    key_hash := hash_key p.raw_key
    duration_seconds := p.duration_seconds
    first_activation_at := none
    expires_at := none
    machine_fingerprint := none
    active := true
    max_seats := p.max_seats
    used_seats := 0 }

lemma create_success (s : Store) (p : LicenseCreate)
    (h1 : ¬ p.max_seats ≤ 0) (h2 : ¬ p.duration_seconds < 0)
    (h3 : findLicense s p.license_id = none) :
    admin_create_license s p =
      (.ok
        { ok := true
          message := "License created (max_seats=" ++ toString p.max_seats ++ ")"
          expires_at := none
          duration_seconds := p.duration_seconds
          max_seats := some p.max_seats
          used_seats := some 0 },
       { s with
         licenses := s.licenses ++ [createdLicense s p]
         nextLicenseId := s.nextLicenseId + 1 }) := by
  simp [admin_create_license, h1, h2, h3, createdLicense]

lemma activate_unknown (s : Store) (p : ActivateRequest) (now : Int)
    (h : findLicense s p.license_id = none) :
    activate s p now = (.error errUnknownOrInactive, s) := by
  simp [activate, h]

lemma activate_inactive (s : Store) (p : ActivateRequest) (now : Int) (lic : License)
    (h : findLicense s p.license_id = some lic) (ha : lic.active = false) :
    activate s p now = (.error errUnknownOrInactive, s) := by
  simp [activate, h, ha]

lemma activate_badkey (s : Store) (p : ActivateRequest) (now : Int) (lic : License)
    (h : findLicense s p.license_id = some lic) (ha : lic.active = true)
    (hk : lic.key_hash ≠ hash_key p.raw_key) :
    activate s p now = (.error errInvalidKey, s) := by
  simp [activate, h, ha, hk]

lemma activate_expired (s : Store) (p : ActivateRequest) (now : Int) (lic : License)
    (h : findLicense s p.license_id = some lic) (ha : lic.active = true)
    (hk : lic.key_hash = hash_key p.raw_key) (he : expiredAt lic now = true) :
    activate s p now = (.error errExpired, s) := by
  simp [activate, h, ha, hk, he]

lemma activate_already (s : Store) (p : ActivateRequest) (now : Int) (lic : License)
    (h : findLicense s p.license_id = some lic) (ha : lic.active = true)
    (hk : lic.key_hash = hash_key p.raw_key) (he : expiredAt lic now = false)
    (hex : (findAct s lic.id p.machine_fingerprint).isSome) :
    activate s p now =
      (.ok
        { ok := true
          message := "Already activated on this machine"
          expires_at := lic.expires_at
          duration_seconds := lic.duration_seconds
          max_seats := some lic.max_seats
          used_seats := some ((countActs s lic.id : Int)) }, s) := by
  simp [activate, h, ha, hk, he, hex]

lemma activate_seats_full (s : Store) (p : ActivateRequest) (now : Int) (lic : License)
    (h : findLicense s p.license_id = some lic) (ha : lic.active = true)
    (hk : lic.key_hash = hash_key p.raw_key) (he : expiredAt lic now = false)
    (hex : findAct s lic.id p.machine_fingerprint = none)
    (hfull : lic.max_seats ≤ (countActs s lic.id : Int)) :
    activate s p now = (.error errSeats, s) := by
  simp [activate, h, ha, hk, he, hex, hfull]

/-- The store produced by the seat-consuming branch of `activate`. -/
def newSeatStore (s : Store) (p : ActivateRequest) (now : Int) (lic : License) : Store :=
  { s with
    licenses := s.licenses.map
      (fun l => if l.id = lic.id
        then consumeSeatUpdate lic p.machine_fingerprint (countActs s lic.id) now
        else l)
    activations := s.activations ++
      [{ id := s.nextActivationId
         license_db_id := lic.id
         machine_fingerprint := p.machine_fingerprint
         activated_at := now }]
    nextActivationId := s.nextActivationId + 1 }

lemma activate_new_seat (s : Store) (p : ActivateRequest) (now : Int) (lic : License)
    (h : findLicense s p.license_id = some lic) (ha : lic.active = true)
    (hk : lic.key_hash = hash_key p.raw_key) (he : expiredAt lic now = false)
    (hex : findAct s lic.id p.machine_fingerprint = none)
    (hroom : ¬ lic.max_seats ≤ (countActs s lic.id : Int)) :
    activate s p now =
      (.ok
        { ok := true
          message := "Activated (seat " ++
            toString (consumeSeatUpdate lic p.machine_fingerprint (countActs s lic.id) now).used_seats
            ++ "/" ++
            toString (consumeSeatUpdate lic p.machine_fingerprint (countActs s lic.id) now).max_seats
            ++ ")"
          expires_at := (consumeSeatUpdate lic p.machine_fingerprint (countActs s lic.id) now).expires_at
          duration_seconds :=
            (consumeSeatUpdate lic p.machine_fingerprint (countActs s lic.id) now).duration_seconds
          max_seats :=
            some (consumeSeatUpdate lic p.machine_fingerprint (countActs s lic.id) now).max_seats
          used_seats :=
            some (consumeSeatUpdate lic p.machine_fingerprint (countActs s lic.id) now).used_seats },
       newSeatStore s p now lic) := by
  simp [activate, h, ha, hk, he, hex, hroom, newSeatStore]

/-! Counting lemmas. -/

lemma countActs_newSeatStore (s : Store) (p : ActivateRequest) (now : Int)
    (lic : License) (dbId : Nat) :
    countActs (newSeatStore s p now lic) dbId =
      countActs s dbId + (if lic.id = dbId then 1 else 0) := by
  by_cases hid : lic.id = dbId <;>
    simp [countActs, newSeatStore, List.filter_append, hid]

lemma countActs_fresh (s : Store) (hwf : WFStore s) :
    countActs s s.nextLicenseId = 0 := by
  have hnil : s.activations.filter (fun a => decide (a.license_db_id = s.nextLicenseId)) = [] := by
    rw [List.filter_eq_nil_iff]
    intro a hmem
    rcases hwf.2.2.2 a hmem with ⟨l, hl, hid⟩
    have := hwf.1 l hl
    simp only [decide_eq_true_eq]
    omega
  simp [countActs, hnil]

lemma countActs_create (s : Store) (p : LicenseCreate) (dbId : Nat) :
    countActs { s with
      licenses := s.licenses ++ [createdLicense s p]
      nextLicenseId := s.nextLicenseId + 1 } dbId = countActs s dbId := by
  simp [countActs]

/-- `find?` by `license_id` commutes with a per-row update that preserves the
`license_id` of every member. -/
lemma findLicense_map (l : List License) (f : License → License) (lid : String)
    (hf : ∀ x ∈ l, (f x).license_id = x.license_id) :
    (l.map f).find? (fun x => decide (x.license_id = lid)) =
      Option.map f (l.find? (fun x => decide (x.license_id = lid))) := by
  induction l with
  | nil => rfl
  | cons a t ih =>
    have ha := hf a (List.mem_cons_self a t)
    by_cases hp : a.license_id = lid
    · simp [List.find?_cons, ha, hp]
    · have h1 : (decide ((f a).license_id = lid)) = false := by
        simp [ha, hp]
      have h2 : (decide (a.license_id = lid)) = false := by simp [hp]
      simp only [List.map_cons, List.find?_cons, h1, h2]
      exact ih (fun x hx => hf x (List.mem_cons_of_mem a hx))

/-! Preservation of the store invariant by the two handlers. -/

lemma create_preserves (s : Store) (p : LicenseCreate) (hinv : StoreInv s) :
    StoreInv (admin_create_license s p).2 := by
  by_cases h1 : p.max_seats ≤ 0
  · rw [create_invalid_seats s p h1]; exact hinv
  by_cases h2 : p.duration_seconds < 0
  · rw [create_invalid_duration s p h1 h2]; exact hinv
  rcases hfl : findLicense s p.license_id with _ | l
  rotate_left
  · rw [create_duplicate s p h1 h2 (by simp [hfl])]; exact hinv
  rw [create_success s p h1 h2 hfl]
  obtain ⟨⟨hlt, hidsne, hlidne, hfk⟩, hok⟩ := hinv
  have hfresh : ∀ l ∈ s.licenses, l.id ≠ s.nextLicenseId := by
    intro l hl
    have := hlt l hl
    omega
  have hfreshlid : ∀ l ∈ s.licenses, l.license_id ≠ p.license_id := by
    intro l hl heq
    have := List.find?_eq_none.mp hfl l hl
    simp [heq] at this
  refine ⟨⟨?_, ?_, ?_, ?_⟩, ?_⟩
  · intro l hl
    rcases List.mem_append.mp hl with hl | hl
    · have := hlt l hl; simp only; omega
    · simp only [List.mem_singleton.mp hl, createdLicense]; omega
  · refine List.pairwise_append.mpr ⟨hidsne, List.pairwise_singleton _ _, ?_⟩
    intro a haa b hbb
    rw [List.mem_singleton.mp hbb]
    exact hfresh a haa
  · refine List.pairwise_append.mpr ⟨hlidne, List.pairwise_singleton _ _, ?_⟩
    intro a haa b hbb
    rw [List.mem_singleton.mp hbb]
    exact hfreshlid a haa
  · intro a hmem
    rcases hfk a hmem with ⟨l, hl, hid⟩
    exact ⟨l, List.mem_append_left _ hl, hid⟩
  · intro l hl
    rcases List.mem_append.mp hl with hl | hl
    · rcases hok l hl with ⟨hb, hc, hd⟩
      exact ⟨by rw [countActs_create]; exact hb, by rw [countActs_create]; exact hc, hd⟩
    · rw [List.mem_singleton.mp hl]
      have h0 : countActs { s with
          licenses := s.licenses ++ [createdLicense s p]
          nextLicenseId := s.nextLicenseId + 1 } (createdLicense s p).id = 0 := by
        rw [countActs_create]
        exact countActs_fresh s ⟨hlt, hidsne, hlidne, hfk⟩
      refine ⟨?_, ?_, fun _ => rfl⟩
      · rw [h0]; simp only [createdLicense]; omega
      · rw [h0]; rfl

lemma consumeSeatUpdate_expires_at (lic : License) (fp : String) (used : Nat) (now : Int) :
    (consumeSeatUpdate lic fp used now).expires_at =
      (firstActivationUpdate lic now).expires_at := rfl

lemma consumeSeatUpdate_first_activation_at (lic : License) (fp : String) (used : Nat) (now : Int) :
    (consumeSeatUpdate lic fp used now).first_activation_at =
      (firstActivationUpdate lic now).first_activation_at := rfl

lemma newSeatStore_inv (s : Store) (p : ActivateRequest) (now : Int) (lic : License)
    (hinv : StoreInv s) (hmem : lic ∈ s.licenses)
    (hroom : ¬ lic.max_seats ≤ (countActs s lic.id : Int)) :
    StoreInv (newSeatStore s p now lic) := by
  obtain ⟨⟨hlt, hids, hlids, hfk⟩, hok⟩ := hinv
  set used := countActs s lic.id with hused
  set lic2 := consumeSeatUpdate lic p.machine_fingerprint used now with hlic2
  set f : License → License := fun l => if l.id = lic.id then lic2 else l with hfdef
  obtain ⟨h2id, h2lid, h2key, h2dur, h2act, h2max, h2mf, h2used⟩ :=
    consumeSeatUpdate_fields lic p.machine_fingerprint used now
  have hf_eq : ∀ x : License, x.id = lic.id → f x = lic2 := by
    intro x h; simp [hfdef, h]
  have hf_ne : ∀ x : License, x.id ≠ lic.id → f x = x := by
    intro x h; simp [hfdef, h]
  have hfid : ∀ x, (f x).id = x.id := by
    intro x
    by_cases h : x.id = lic.id
    · rw [hf_eq x h, hlic2, h2id, h]
    · rw [hf_ne x h]
  have hflid : ∀ x ∈ s.licenses, (f x).license_id = x.license_id := by
    intro x hx
    by_cases h : x.id = lic.id
    · have hxl : x = lic := eq_of_mem_of_id_eq hids hx hmem h
      rw [hf_eq x h, hlic2, h2lid, hxl]
    · rw [hf_ne x h]
  have hlicenses : (newSeatStore s p now lic).licenses = s.licenses.map f := rfl
  refine ⟨⟨?_, ?_, ?_, ?_⟩, ?_⟩
  · intro l hl
    rw [hlicenses] at hl
    rcases List.mem_map.mp hl with ⟨x, hx, rfl⟩
    rw [hfid x]
    exact hlt x hx
  · rw [hlicenses, List.pairwise_map]
    exact hids.imp (fun {a b} h => by rw [hfid a, hfid b]; exact h)
  · rw [hlicenses, List.pairwise_map]
    exact (hlids.imp_of_mem (fun {a b} ha hb h => by
      rw [hflid a ha, hflid b hb]; exact h))
  · intro a hmema
    rcases List.mem_append.mp hmema with hold | hnew
    · rcases hfk a hold with ⟨l, hl, hid⟩
      exact ⟨f l, by rw [hlicenses]; exact List.mem_map_of_mem f hl, by rw [hfid l]; exact hid⟩
    · refine ⟨f lic, by rw [hlicenses]; exact List.mem_map_of_mem f hmem, ?_⟩
      rw [hfid lic]
      rw [List.mem_singleton.mp hnew]
  · intro l' hl'
    rw [hlicenses] at hl'
    rcases List.mem_map.mp hl' with ⟨x, hx, rfl⟩
    by_cases h : x.id = lic.id
    · have hxl : x = lic := eq_of_mem_of_id_eq hids hx hmem h
      subst hxl
      have hfx : f x = lic2 := by simp [hfdef, h]
      rw [hfx]
      have hcount : countActs (newSeatStore s p now x) lic2.id = used + 1 := by
        rw [h2id, countActs_newSeatStore, ← h, ← hused, if_pos rfl]
      refine ⟨?_, ?_, ?_⟩
      · rw [hcount, h2max]
        push_cast
        omega
      · rw [hcount, h2used]
        push_cast
        ring
      · rw [h2dur]
        intro hdur
        rw [hlic2, consumeSeatUpdate_expires_at]
        unfold firstActivationUpdate
        split
        · simp [hdur]
        · exact (hok x hx).2.2 hdur
    · have hfx : f x = x := by simp [hfdef, h]
      rw [hfx]
      have hcount : countActs (newSeatStore s p now lic) x.id = countActs s x.id := by
        rw [countActs_newSeatStore, if_neg (fun hc => h hc.symm), Nat.add_zero]
      rcases hok x hx with ⟨hb, hc, hd⟩
      exact ⟨by rw [hcount]; exact hb, by rw [hcount]; exact hc, hd⟩

lemma activate_preserves (s : Store) (p : ActivateRequest) (now : Int) (hinv : StoreInv s) :
    StoreInv (activate s p now).2 := by
  rcases hfl : findLicense s p.license_id with _ | lic
  · rw [activate_unknown s p now hfl]; exact hinv
  rcases ha : lic.active with _ | _
  · rw [activate_inactive s p now lic hfl ha]; exact hinv
  by_cases hk : lic.key_hash = hash_key p.raw_key
  rotate_left
  · rw [activate_badkey s p now lic hfl ha hk]; exact hinv
  rcases he : expiredAt lic now with _ | _
  rotate_left
  · rw [activate_expired s p now lic hfl ha hk he]; exact hinv
  rcases hex : findAct s lic.id p.machine_fingerprint with _ | a
  rotate_left
  · rw [activate_already s p now lic hfl ha hk he (by simp [hex])]; exact hinv
  by_cases hfull : lic.max_seats ≤ (countActs s lic.id : Int)
  · rw [activate_seats_full s p now lic hfl ha hk he hex hfull]; exact hinv
  rw [activate_new_seat s p now lic hfl ha hk he hex hfull]
  exact newSeatStore_inv s p now lic hinv (findLicense_mem hfl) hfull

/-- Every reachable store satisfies the invariant. -/
lemma storeInv_of_reachable {s : Store} (h : Reachable s) : StoreInv s := by
  induction h with
  | init =>
    refine ⟨⟨?_, ?_, ?_, ?_⟩, ?_⟩ <;> simp [initStore, WFStore]
  | create s p _ ih => exact create_preserves s p ih
  | act s p now _ ih => exact activate_preserves s p now ih

lemma firstActivationUpdate_already (lic : License) (now t0 : Int)
    (h : lic.first_activation_at = some t0) : firstActivationUpdate lic now = lic := by
  unfold firstActivationUpdate
  rw [h]
  simp

lemma firstActivationUpdate_fresh (lic : License) (now : Int)
    (h : lic.first_activation_at = none) :
    (firstActivationUpdate lic now).first_activation_at = some now ∧
    (firstActivationUpdate lic now).expires_at =
      (if lic.duration_seconds = 0 then none else some (now + lic.duration_seconds)) := by
  unfold firstActivationUpdate
  rw [h, if_pos rfl]
  exact ⟨rfl, rfl⟩

/-- After the seat-consuming branch, looking the license up again by
`license_id` returns exactly the updated row. -/
lemma findLicense_newSeatStore (s : Store) (p : ActivateRequest) (now : Int) (lic : License)
    (hinv : StoreInv s) (h : findLicense s p.license_id = some lic) :
    findLicense (newSeatStore s p now lic) p.license_id =
      some (consumeSeatUpdate lic p.machine_fingerprint (countActs s lic.id) now) := by
  obtain ⟨⟨_, hids, _, _⟩, _⟩ := hinv
  have hmem : lic ∈ s.licenses := findLicense_mem h
  obtain ⟨h2id, h2lid, _⟩ := consumeSeatUpdate_fields lic p.machine_fingerprint (countActs s lic.id) now
  have hflid : ∀ x ∈ s.licenses,
      ((fun l => if l.id = lic.id
        then consumeSeatUpdate lic p.machine_fingerprint (countActs s lic.id) now
        else l) x).license_id = x.license_id := by
    intro x hx
    by_cases hxid : x.id = lic.id
    · have hxl : x = lic := eq_of_mem_of_id_eq hids hx hmem hxid
      rw [hxl]
      simp [h2lid]
    · simp [hxid]
  show ((newSeatStore s p now lic).licenses).find? _ = _
  have : (newSeatStore s p now lic).licenses = s.licenses.map
      (fun l => if l.id = lic.id
        then consumeSeatUpdate lic p.machine_fingerprint (countActs s lic.id) now
        else l) := rfl
  rw [this, findLicense_map _ _ _ hflid]
  show Option.map _ (findLicense s p.license_id) = _
  rw [h]
  simp

/-! Concrete scenario of §8 of the spec — license `L1`, key `k1`,
`duration_seconds = 3600`, `max_seats = 2` — used to instantiate the claim
theorems at explicit inputs. -/

def pL1 : LicenseCreate := ⟨"L1", "k1", 3600, 2⟩
def reqA : ActivateRequest := ⟨"L1", "k1", "A"⟩
def reqB : ActivateRequest := ⟨"L1", "k1", "B"⟩
def reqC : ActivateRequest := ⟨"L1", "k1", "C"⟩

/-- The store after creating `L1`. -/
def storeL1 : Store := (admin_create_license initStore pL1).2
/-- After machine `A` activates at time 100. -/
def storeA : Store := (activate storeL1 reqA 100).2
/-- After machine `B` also activates, at time 200: both seats consumed. -/
def storeAB : Store := (activate storeA reqB 200).2

/-- The `L1` row as stored in `storeL1`. -/
def licL1 : License :=
  ⟨1, "L1", hash_key "k1", 3600, none, none, none, true, 2, 0⟩
/-- The `L1` row as stored in `storeA`. -/
def licA : License :=
  ⟨1, "L1", hash_key "k1", 3600, some 100, some 3700, some "A", true, 2, 1⟩
/-- The `L1` row as stored in `storeAB`. -/
def licAB : License :=
  ⟨1, "L1", hash_key "k1", 3600, some 100, some 3700, some "B", true, 2, 2⟩

lemma reachable_storeL1 : Reachable storeL1 := .create initStore pL1 .init
lemma reachable_storeA : Reachable storeA := .act storeL1 reqA 100 reachable_storeL1
lemma reachable_storeAB : Reachable storeAB := .act storeA reqB 200 reachable_storeA

/-! The claims. -/

/-- Claim C1: in every store reachable from the empty store by
`admin_create_license`/`activate` calls, each license's count of Activation
records is at most its `max_seats`; when the requesting machine holds no
Activation and the derived count has reached `max_seats` (the earlier
load/key/expiry checks passing), `activate` fails with the seats-exhausted
error and leaves the store unchanged; and an Activation row is inserted only
when the machine held none and the derived count was strictly below
`max_seats`. -/
theorem C1_seat_bound :
    (∀ s : Store, Reachable s → ∀ l ∈ s.licenses, (countActs s l.id : Int) ≤ l.max_seats) ∧
    (∀ (s : Store) (p : ActivateRequest) (now : Int) (lic : License),
      findLicense s p.license_id = some lic → lic.active = true →
      lic.key_hash = hash_key p.raw_key → expiredAt lic now = false →
      findAct s lic.id p.machine_fingerprint = none →
      lic.max_seats ≤ (countActs s lic.id : Int) →
      activate s p now = (.error errSeats, s)) ∧
    (∀ (s : Store) (p : ActivateRequest) (now : Int),
      (activate s p now).2.activations ≠ s.activations →
      ∃ lic, findLicense s p.license_id = some lic ∧
        findAct s lic.id p.machine_fingerprint = none ∧
        (countActs s lic.id : Int) < lic.max_seats) := by
  refine ⟨?_, ?_, ?_⟩
  · intro s hs l hl
    exact ((storeInv_of_reachable hs).2 l hl).1
  · intro s p now lic h ha hk he hex hfull
    exact activate_seats_full s p now lic h ha hk he hex hfull
  · intro s p now hne
    rcases hfl : findLicense s p.license_id with _ | lic
    · rw [activate_unknown s p now hfl] at hne; exact absurd rfl hne
    rcases ha : lic.active with _ | _
    · rw [activate_inactive s p now lic hfl ha] at hne; exact absurd rfl hne
    by_cases hk : lic.key_hash = hash_key p.raw_key
    rotate_left
    · rw [activate_badkey s p now lic hfl ha hk] at hne; exact absurd rfl hne
    rcases he : expiredAt lic now with _ | _
    rotate_left
    · rw [activate_expired s p now lic hfl ha hk he] at hne; exact absurd rfl hne
    rcases hex : findAct s lic.id p.machine_fingerprint with _ | a
    rotate_left
    · rw [activate_already s p now lic hfl ha hk he (by simp [hex])] at hne
      exact absurd rfl hne
    by_cases hfull : lic.max_seats ≤ (countActs s lic.id : Int)
    · rw [activate_seats_full s p now lic hfl ha hk he hex hfull] at hne
      exact absurd rfl hne
    exact ⟨lic, rfl, hex, by omega⟩

/-- Witness for C1 at the §8 scenario: with both seats of `L1` consumed the
derived count meets the bound, and machine `C` is refused. -/
theorem C1_seat_bound_witness :
    ((countActs storeAB 1 : Int) ≤ 2) ∧
    activate storeAB reqC 300 = (.error errSeats, storeAB) := by
  refine ⟨C1_seat_bound.1 storeAB reachable_storeAB licAB (by decide), ?_⟩
  exact C1_seat_bound.2.1 storeAB reqC 300 licAB (by decide) (by decide) (by decide)
    (by decide) (by decide) (by decide)

/-- Claim C2: once a license's non-null `expires_at` has passed
(`expires_at ≤ now`), `activate` fails with the expired error and changes
nothing, for every machine fingerprint — no hypothesis restricts the
fingerprint, so this covers a machine that already holds a seat: the expiry
check precedes the existing-activation lookup. -/
theorem C2_expiry_precedence :
    ∀ (s : Store) (p : ActivateRequest) (now : Int) (lic : License) (e : Int),
      findLicense s p.license_id = some lic → lic.active = true →
      lic.key_hash = hash_key p.raw_key →
      lic.expires_at = some e → e ≤ now →
      activate s p now = (.error errExpired, s) := by
  intro s p now lic e h ha hk hee hle
  refine activate_expired s p now lic h ha hk ?_
  simp [expiredAt, hee, hle]

/-- Witness for C2: after `t0 + 3600` has passed, machine `A`, which already
holds a seat on `L1`, is refused with the expired error. -/
theorem C2_expiry_precedence_witness :
    (findAct storeAB 1 "A").isSome = true ∧
    activate storeAB reqA 5000 = (.error errExpired, storeAB) :=
  ⟨by decide, C2_expiry_precedence storeAB reqA 5000 licAB 3700 (by decide) (by decide)
    (by decide) (by decide) (by decide)⟩

/-- Claim C3: a machine that already holds an Activation on a known, active,
key-valid, unexpired license gets a success response carrying the license's
current `expires_at` and the derived seat count, the store is not mutated, and
consequently an immediately repeated identical call returns the identical
outcome. -/
theorem C3_idempotent_reactivation :
    ∀ (s : Store) (p : ActivateRequest) (now : Int) (lic : License),
      findLicense s p.license_id = some lic → lic.active = true →
      lic.key_hash = hash_key p.raw_key → expiredAt lic now = false →
      (findAct s lic.id p.machine_fingerprint).isSome →
      activate s p now =
        (.ok
          { ok := true
            message := "Already activated on this machine"
            expires_at := lic.expires_at
            duration_seconds := lic.duration_seconds
            max_seats := some lic.max_seats
            used_seats := some ((countActs s lic.id : Int)) }, s) ∧
      activate (activate s p now).2 p now = activate s p now := by
  intro s p now lic h ha hk he hex
  have h1 := activate_already s p now lic h ha hk he hex
  refine ⟨h1, ?_⟩
  rw [h1]
  exact h1

/-- Witness for C3: machine `A` re-activates on the fully seated `L1`; the
response repeats `expires_at = 3700` and `used_seats = 2`, the store is
untouched, and the repeated call is identical. -/
theorem C3_idempotent_reactivation_witness :
    activate storeAB reqA 400 =
      (.ok
        { ok := true
          message := "Already activated on this machine"
          expires_at := some 3700
          duration_seconds := 3600
          max_seats := some 2
          used_seats := some 2 }, storeAB) ∧
    activate (activate storeAB reqA 400).2 reqA 400 = activate storeAB reqA 400 :=
  C3_idempotent_reactivation storeAB reqA 400 licAB (by decide) (by decide) (by decide)
    (by decide) (by decide)

/-- Claim C4: when the seat-consuming branch runs with `first_activation_at`
still null, the stored row afterwards carries `first_activation_at = now` and
`expires_at = none` for `duration_seconds = 0`, else `some (now +
duration_seconds)`; when `first_activation_at` was already set, every
successful `activate` call leaves both fields as they were; and in every
reachable store a perpetual license (`duration_seconds = 0`) has
`expires_at = none`, whatever activations happened. -/
theorem C4_expiry_window_once :
    (∀ (s : Store) (p : ActivateRequest) (now : Int) (lic : License),
      Reachable s →
      findLicense s p.license_id = some lic → lic.active = true →
      lic.key_hash = hash_key p.raw_key → expiredAt lic now = false →
      findAct s lic.id p.machine_fingerprint = none →
      ¬ lic.max_seats ≤ (countActs s lic.id : Int) →
      lic.first_activation_at = none →
      ∃ lic', findLicense (activate s p now).2 p.license_id = some lic' ∧
        lic'.first_activation_at = some now ∧
        lic'.expires_at = (if lic.duration_seconds = 0 then none
                           else some (now + lic.duration_seconds))) ∧
    (∀ (s : Store) (p : ActivateRequest) (now : Int) (lic : License) (t0 : Int)
      (r : ActivateResponse),
      Reachable s →
      findLicense s p.license_id = some lic →
      lic.first_activation_at = some t0 →
      (activate s p now).1 = .ok r →
      ∃ lic', findLicense (activate s p now).2 p.license_id = some lic' ∧
        lic'.first_activation_at = some t0 ∧
        lic'.expires_at = lic.expires_at) ∧
    (∀ s : Store, Reachable s → ∀ l ∈ s.licenses,
      l.duration_seconds = 0 → l.expires_at = none) := by
  refine ⟨?_, ?_, ?_⟩
  · intro s p now lic hreach h ha hk he hex hroom hfa
    rw [activate_new_seat s p now lic h ha hk he hex hroom]
    refine ⟨consumeSeatUpdate lic p.machine_fingerprint (countActs s lic.id) now,
      findLicense_newSeatStore s p now lic (storeInv_of_reachable hreach) h, ?_, ?_⟩
    · rw [consumeSeatUpdate_first_activation_at]
      exact (firstActivationUpdate_fresh lic now hfa).1
    · rw [consumeSeatUpdate_expires_at]
      exact (firstActivationUpdate_fresh lic now hfa).2
  · intro s p now lic t0 r hreach h hfa hok
    rcases ha : lic.active with _ | _
    · rw [activate_inactive s p now lic h ha] at hok; cases hok
    by_cases hk : lic.key_hash = hash_key p.raw_key
    rotate_left
    · rw [activate_badkey s p now lic h ha hk] at hok; cases hok
    rcases he : expiredAt lic now with _ | _
    rotate_left
    · rw [activate_expired s p now lic h ha hk he] at hok; cases hok
    rcases hex : findAct s lic.id p.machine_fingerprint with _ | a
    rotate_left
    · rw [activate_already s p now lic h ha hk he (by simp [hex])]
      exact ⟨lic, h, hfa, rfl⟩
    by_cases hfull : lic.max_seats ≤ (countActs s lic.id : Int)
    · rw [activate_seats_full s p now lic h ha hk he hex hfull] at hok; cases hok
    rw [activate_new_seat s p now lic h ha hk he hex hfull]
    refine ⟨consumeSeatUpdate lic p.machine_fingerprint (countActs s lic.id) now,
      findLicense_newSeatStore s p now lic (storeInv_of_reachable hreach) h, ?_, ?_⟩
    · rw [consumeSeatUpdate_first_activation_at, firstActivationUpdate_already lic now t0 hfa]
      exact hfa
    · rw [consumeSeatUpdate_expires_at, firstActivationUpdate_already lic now t0 hfa]
  · intro s hs l hl
    exact ((storeInv_of_reachable hs).2 l hl).2.2

/-- Witness for C4: machine `A`'s first activation of `L1` at time 100 stamps
`first_activation_at = 100` and `expires_at = 3700`; machine `B`'s later
successful activation leaves both fields untouched. -/
theorem C4_expiry_window_once_witness :
    (∃ lic', findLicense (activate storeL1 reqA 100).2 "L1" = some lic' ∧
      lic'.first_activation_at = some 100 ∧
      lic'.expires_at = (if (3600 : Int) = 0 then none else some (100 + 3600))) ∧
    (∃ lic', findLicense (activate storeA reqB 200).2 "L1" = some lic' ∧
      lic'.first_activation_at = some 100 ∧
      lic'.expires_at = some 3700) := by
  constructor
  · exact C4_expiry_window_once.1 storeL1 reqA 100 licL1 reachable_storeL1 (by decide)
      (by decide) (by decide) (by decide) (by decide) (by decide) (by decide)
  · exact C4_expiry_window_once.2.1 storeA reqB 200 licA 100
      { ok := true
        message := "Activated (seat 2/2)"
        expires_at := some 3700
        duration_seconds := 3600
        max_seats := some 2
        used_seats := some 2 }
      reachable_storeA (by decide) (by decide) rfl

/-- Claim C5: whenever `activate` or `admin_create_license` fails — any of the
domain errors — the resulting store equals the input store: no License field
changed, no Activation inserted. -/
theorem C5_errors_mutate_nothing :
    (∀ (s : Store) (p : ActivateRequest) (now : Int) (e : HttpError),
      (activate s p now).1 = .error e → (activate s p now).2 = s) ∧
    (∀ (s : Store) (p : LicenseCreate) (e : HttpError),
      (admin_create_license s p).1 = .error e → (admin_create_license s p).2 = s) := by
  constructor
  · intro s p now e herr
    rcases hfl : findLicense s p.license_id with _ | lic
    · rw [activate_unknown s p now hfl]
    rcases ha : lic.active with _ | _
    · rw [activate_inactive s p now lic hfl ha]
    by_cases hk : lic.key_hash = hash_key p.raw_key
    rotate_left
    · rw [activate_badkey s p now lic hfl ha hk]
    rcases he : expiredAt lic now with _ | _
    rotate_left
    · rw [activate_expired s p now lic hfl ha hk he]
    rcases hex : findAct s lic.id p.machine_fingerprint with _ | a
    rotate_left
    · rw [activate_already s p now lic hfl ha hk he (by simp [hex])]
    by_cases hfull : lic.max_seats ≤ (countActs s lic.id : Int)
    · rw [activate_seats_full s p now lic hfl ha hk he hex hfull]
    rw [activate_new_seat s p now lic hfl ha hk he hex hfull] at herr
    cases herr
  · intro s p e herr
    by_cases h1 : p.max_seats ≤ 0
    · rw [create_invalid_seats s p h1]
    by_cases h2 : p.duration_seconds < 0
    · rw [create_invalid_duration s p h1 h2]
    rcases hfl : findLicense s p.license_id with _ | l
    rotate_left
    · rw [create_duplicate s p h1 h2 (by simp [hfl])]
    rw [create_success s p h1 h2 hfl] at herr
    cases herr

/-- Witness for C5: the expired-activation failure and the duplicate-creation
failure each leave the store exactly as it was. -/
theorem C5_errors_mutate_nothing_witness :
    (activate storeAB reqA 5000).2 = storeAB ∧
    (admin_create_license storeL1 pL1).2 = storeL1 :=
  ⟨C5_errors_mutate_nothing.1 storeAB reqA 5000 errExpired rfl,
   C5_errors_mutate_nothing.2 storeL1 pL1 errDuplicate rfl⟩

/-- Claim C6: every seat count the business logic uses is the derived count of
Activation records: the seat-limit check fails exactly when the derived count
has reached `max_seats`; the already-activated response reports the derived
count of the (unchanged) store; and the new-seat response reports a value
provably equal to the derived count of the resulting store — the cached
`used_seats` column it passes through is overwritten with derived count plus
one inside the same call, so no previously stored counter value can ever reach
a response or a decision. -/
theorem C6_counts_derived :
    (∀ (s : Store) (p : ActivateRequest) (now : Int) (lic : License),
      findLicense s p.license_id = some lic → lic.active = true →
      lic.key_hash = hash_key p.raw_key → expiredAt lic now = false →
      findAct s lic.id p.machine_fingerprint = none →
      ((activate s p now).1 = .error errSeats ↔
        lic.max_seats ≤ (countActs s lic.id : Int))) ∧
    (∀ (s : Store) (p : ActivateRequest) (now : Int) (lic : License),
      findLicense s p.license_id = some lic → lic.active = true →
      lic.key_hash = hash_key p.raw_key → expiredAt lic now = false →
      (findAct s lic.id p.machine_fingerprint).isSome →
      ∃ r, (activate s p now).1 = .ok r ∧
        r.used_seats = some ((countActs (activate s p now).2 lic.id : Int))) ∧
    (∀ (s : Store) (p : ActivateRequest) (now : Int) (lic : License),
      findLicense s p.license_id = some lic → lic.active = true →
      lic.key_hash = hash_key p.raw_key → expiredAt lic now = false →
      findAct s lic.id p.machine_fingerprint = none →
      ¬ lic.max_seats ≤ (countActs s lic.id : Int) →
      ∃ r, (activate s p now).1 = .ok r ∧
        r.used_seats = some ((countActs (activate s p now).2 lic.id : Int))) := by
  refine ⟨?_, ?_, ?_⟩
  · intro s p now lic h ha hk he hex
    constructor
    · intro herr
      by_cases hfull : lic.max_seats ≤ (countActs s lic.id : Int)
      · exact hfull
      · rw [activate_new_seat s p now lic h ha hk he hex hfull] at herr
        cases herr
    · intro hfull
      rw [activate_seats_full s p now lic h ha hk he hex hfull]
  · intro s p now lic h ha hk he hex
    rw [activate_already s p now lic h ha hk he hex]
    exact ⟨_, rfl, rfl⟩
  · intro s p now lic h ha hk he hex hroom
    rw [activate_new_seat s p now lic h ha hk he hex hroom]
    refine ⟨_, rfl, ?_⟩
    obtain ⟨_, _, _, _, _, _, _, h2used⟩ :=
      consumeSeatUpdate_fields lic p.machine_fingerprint (countActs s lic.id) now
    have hcnt : countActs (newSeatStore s p now lic) lic.id = countActs s lic.id + 1 := by
      rw [countActs_newSeatStore, if_pos rfl]
    rw [h2used, hcnt]
    norm_cast

/-- Witness for C6: on the fully seated `L1` the seat check trips exactly at
the derived count 2; machine `A`'s idempotent response and machine `B`'s
seat-consuming response both report the derived count of the resulting
store. -/
theorem C6_counts_derived_witness :
    ((activate storeAB reqC 300).1 = .error errSeats ↔
      (2 : Int) ≤ (countActs storeAB 1 : Int)) ∧
    (∃ r, (activate storeAB reqA 400).1 = .ok r ∧
      r.used_seats = some ((countActs (activate storeAB reqA 400).2 1 : Int))) ∧
    (∃ r, (activate storeA reqB 200).1 = .ok r ∧
      r.used_seats = some ((countActs (activate storeA reqB 200).2 1 : Int))) :=
  ⟨C6_counts_derived.1 storeAB reqC 300 licAB (by decide) (by decide) (by decide)
      (by decide) (by decide),
   C6_counts_derived.2.1 storeAB reqA 400 licAB (by decide) (by decide) (by decide)
      (by decide) (by decide),
   C6_counts_derived.2.2 storeA reqB 200 licA (by decide) (by decide) (by decide)
      (by decide) (by decide) (by decide)⟩

/-- Row-level effect of one `activate` call on one License row: the row is
either completely untouched — every field equal — or it is the row the call
looked up by `license_id` and it carries exactly the seat-consumption update
(`consumeSeatUpdate`, the embedding of lines 210–229). -/
def RowEffect (s : Store) (p : ActivateRequest) (now : Int) (l l' : License) : Prop :=
  l' = l ∨
  (findLicense s p.license_id = some l ∧
   l' = consumeSeatUpdate l p.machine_fingerprint (countActs s l.id) now)

lemma forall2_map_self {R : License → License → Prop} (f : License → License) :
    ∀ l : List License, (∀ x ∈ l, R x (f x)) → List.Forall₂ R l (l.map f)
  | [], _ => List.Forall₂.nil
  | a :: t, h =>
    List.Forall₂.cons (h a (List.mem_cons_self a t))
      (forall2_map_self f t (fun x hx => h x (List.mem_cons_of_mem a hx)))

lemma forall2_rowEffect_self (s : Store) (p : ActivateRequest) (now : Int)
    (l : List License) : List.Forall₂ (RowEffect s p now) l l :=
  List.forall₂_same.mpr (fun _ _ => Or.inl rfl)

lemma consumeSeat_frozen_fields (lic : License) (fp : String) (used : Nat) (now : Int) :
    ∀ t0 : Int, lic.first_activation_at = some t0 →
      (consumeSeatUpdate lic fp used now).first_activation_at = some t0 ∧
      (consumeSeatUpdate lic fp used now).expires_at = lic.expires_at := by
  intro t0 ht0
  rw [consumeSeatUpdate_first_activation_at, consumeSeatUpdate_expires_at,
    firstActivationUpdate_already lic now t0 ht0]
  exact ⟨ht0, rfl⟩

/-- Claim C7 as stated is false on the code: the (successful) first activation
of `L1` also rewrites the legacy `machine_fingerprint` column (`none` to
`some "A"`) and the cached `used_seats` column (`0` to `1`) of the License
row — two mutations beyond setting `first_activation_at`/`expires_at`. -/
theorem C7_counterexample :
    (activate storeL1 reqA 100).1 =
      .ok
        { ok := true
          message := "Activated (seat 1/2)"
          expires_at := some 3700
          duration_seconds := 3600
          max_seats := some 2
          used_seats := some 1 } ∧
    (findLicense storeL1 "L1").map License.used_seats = some 0 ∧
    (findLicense (activate storeL1 reqA 100).2 "L1").map License.used_seats = some 1 ∧
    (findLicense storeL1 "L1").map License.machine_fingerprint = some none ∧
    (findLicense (activate storeL1 reqA 100).2 "L1").map License.machine_fingerprint =
      some (some "A") :=
  ⟨rfl, rfl, rfl, rfl, rfl⟩

/-- Claim C7 amended: an `activate` call mutates only the license row it
looked up — every other row of a reachable store is left with every field
equal, and even the looked-up row is either untouched or carries exactly the
seat-consumption update; on *every* call that consumes a seat (i.e. whenever
the activation table changes at all) exactly one Activation row is appended
and the activated row's legacy `machine_fingerprint` column is set to the
request's fingerprint and its cached `used_seats` counter to the derived
count plus one, while `license_id`, `key_hash`, `duration_seconds`,
`max_seats` and `active` are unchanged and `first_activation_at`/`expires_at`
are unchanged whenever already set; no operation deletes a License or an
Activation row (`admin_create_license` only appends). -/
theorem C7_frame_conditions :
    (∀ (s : Store) (p : ActivateRequest) (now : Int),
      Reachable s →
      List.Forall₂ (RowEffect s p now) s.licenses (activate s p now).2.licenses ∧
      ∃ tail, (activate s p now).2.activations = s.activations ++ tail) ∧
    (∀ (s : Store) (p : ActivateRequest) (now : Int),
      Reachable s →
      (activate s p now).2.activations ≠ s.activations →
      ∃ lic lic', findLicense s p.license_id = some lic ∧
        findLicense (activate s p now).2 p.license_id = some lic' ∧
        lic' = consumeSeatUpdate lic p.machine_fingerprint (countActs s lic.id) now ∧
        lic'.machine_fingerprint = some p.machine_fingerprint ∧
        lic'.used_seats = (countActs s lic.id : Int) + 1 ∧
        lic'.license_id = lic.license_id ∧ lic'.key_hash = lic.key_hash ∧
        lic'.duration_seconds = lic.duration_seconds ∧
        lic'.max_seats = lic.max_seats ∧ lic'.active = lic.active ∧
        (∀ t0 : Int, lic.first_activation_at = some t0 →
          lic'.first_activation_at = some t0 ∧ lic'.expires_at = lic.expires_at) ∧
        (activate s p now).2.activations = s.activations ++
          [{ id := s.nextActivationId
             license_db_id := lic.id
             machine_fingerprint := p.machine_fingerprint
             activated_at := now }]) ∧
    (∀ (s : Store) (p : LicenseCreate),
      (∃ tailL, (admin_create_license s p).2.licenses = s.licenses ++ tailL) ∧
      (admin_create_license s p).2.activations = s.activations) := by
  refine ⟨?_, ?_, ?_⟩
  · intro s p now hreach
    have hsame : List.Forall₂ (RowEffect s p now) s.licenses s.licenses ∧
        ∃ tail, s.activations = s.activations ++ tail :=
      ⟨forall2_rowEffect_self s p now s.licenses, [], by rw [List.append_nil]⟩
    rcases hfl : findLicense s p.license_id with _ | lic
    · rw [activate_unknown s p now hfl]; exact hsame
    rcases ha : lic.active with _ | _
    · rw [activate_inactive s p now lic hfl ha]; exact hsame
    by_cases hk : lic.key_hash = hash_key p.raw_key
    rotate_left
    · rw [activate_badkey s p now lic hfl ha hk]; exact hsame
    rcases he : expiredAt lic now with _ | _
    rotate_left
    · rw [activate_expired s p now lic hfl ha hk he]; exact hsame
    rcases hex : findAct s lic.id p.machine_fingerprint with _ | a
    rotate_left
    · rw [activate_already s p now lic hfl ha hk he (by simp [hex])]; exact hsame
    by_cases hfull : lic.max_seats ≤ (countActs s lic.id : Int)
    · rw [activate_seats_full s p now lic hfl ha hk he hex hfull]; exact hsame
    rw [activate_new_seat s p now lic hfl ha hk he hex hfull]
    obtain ⟨⟨_, hids, _, _⟩, _⟩ := storeInv_of_reachable hreach
    have hmem : lic ∈ s.licenses := findLicense_mem hfl
    constructor
    · refine forall2_map_self _ s.licenses ?_
      intro x hx
      by_cases hxid : x.id = lic.id
      · have hxl : x = lic := eq_of_mem_of_id_eq hids hx hmem hxid
        subst hxl
        refine Or.inr ⟨hfl, ?_⟩
        show (if x.id = x.id
            then consumeSeatUpdate x p.machine_fingerprint (countActs s x.id) now
            else x) =
          consumeSeatUpdate x p.machine_fingerprint (countActs s x.id) now
        rw [if_pos rfl]
      · refine Or.inl ?_
        show (if x.id = lic.id
            then consumeSeatUpdate lic p.machine_fingerprint (countActs s lic.id) now
            else x) = x
        rw [if_neg hxid]
    · exact ⟨_, rfl⟩
  · intro s p now hreach hne
    rcases hfl : findLicense s p.license_id with _ | lic
    · rw [activate_unknown s p now hfl] at hne; exact absurd rfl hne
    rcases ha : lic.active with _ | _
    · rw [activate_inactive s p now lic hfl ha] at hne; exact absurd rfl hne
    by_cases hk : lic.key_hash = hash_key p.raw_key
    rotate_left
    · rw [activate_badkey s p now lic hfl ha hk] at hne; exact absurd rfl hne
    rcases he : expiredAt lic now with _ | _
    rotate_left
    · rw [activate_expired s p now lic hfl ha hk he] at hne; exact absurd rfl hne
    rcases hex : findAct s lic.id p.machine_fingerprint with _ | a
    rotate_left
    · rw [activate_already s p now lic hfl ha hk he (by simp [hex])] at hne
      exact absurd rfl hne
    by_cases hfull : lic.max_seats ≤ (countActs s lic.id : Int)
    · rw [activate_seats_full s p now lic hfl ha hk he hex hfull] at hne
      exact absurd rfl hne
    rw [activate_new_seat s p now lic hfl ha hk he hex hfull]
    obtain ⟨_, h2lid, h2key, h2dur, h2act, h2max, h2mf, h2used⟩ :=
      consumeSeatUpdate_fields lic p.machine_fingerprint (countActs s lic.id) now
    exact ⟨lic, consumeSeatUpdate lic p.machine_fingerprint (countActs s lic.id) now,
      rfl, findLicense_newSeatStore s p now lic (storeInv_of_reachable hreach) hfl,
      rfl, h2mf, h2used, h2lid, h2key, h2dur, h2max, h2act,
      consumeSeat_frozen_fields lic p.machine_fingerprint (countActs s lic.id) now, rfl⟩
  · intro s p
    have hsame : (∃ tailL, s.licenses = s.licenses ++ tailL) ∧ s.activations = s.activations :=
      ⟨⟨[], by rw [List.append_nil]⟩, rfl⟩
    by_cases h1 : p.max_seats ≤ 0
    · rw [create_invalid_seats s p h1]; exact hsame
    by_cases h2 : p.duration_seconds < 0
    · rw [create_invalid_duration s p h1 h2]; exact hsame
    rcases hfl : findLicense s p.license_id with _ | l
    rotate_left
    · rw [create_duplicate s p h1 h2 (by simp [hfl])]; exact hsame
    rw [create_success s p h1 h2 hfl]
    exact ⟨⟨[createdLicense s p], rfl⟩, rfl⟩

/-- Witness for the amended C7 at the §8 scenario: machine `B`'s seat-consuming
activation touches only the `L1` row, sets its fingerprint column to `B` and
its counter to the derived count plus one while appending one Activation row,
and creation only appends. -/
theorem C7_frame_conditions_witness :
    (List.Forall₂ (RowEffect storeA reqB 200) storeA.licenses
        (activate storeA reqB 200).2.licenses ∧
      ∃ tail, (activate storeA reqB 200).2.activations = storeA.activations ++ tail) ∧
    (∃ lic lic', findLicense storeA "L1" = some lic ∧
      findLicense (activate storeA reqB 200).2 "L1" = some lic' ∧
      lic' = consumeSeatUpdate lic "B" (countActs storeA lic.id) 200 ∧
      lic'.machine_fingerprint = some "B" ∧
      lic'.used_seats = (countActs storeA lic.id : Int) + 1 ∧
      lic'.license_id = lic.license_id ∧ lic'.key_hash = lic.key_hash ∧
      lic'.duration_seconds = lic.duration_seconds ∧
      lic'.max_seats = lic.max_seats ∧ lic'.active = lic.active ∧
      (∀ t0 : Int, lic.first_activation_at = some t0 →
        lic'.first_activation_at = some t0 ∧ lic'.expires_at = lic.expires_at) ∧
      (activate storeA reqB 200).2.activations = storeA.activations ++
        [{ id := storeA.nextActivationId
           license_db_id := lic.id
           machine_fingerprint := "B"
           activated_at := 200 }]) ∧
    ((∃ tailL, (admin_create_license initStore pL1).2.licenses = initStore.licenses ++ tailL) ∧
      (admin_create_license initStore pL1).2.activations = initStore.activations) :=
  ⟨C7_frame_conditions.1 storeA reqB 200 reachable_storeA,
   C7_frame_conditions.2.1 storeA reqB 200 reachable_storeA (by decide),
   C7_frame_conditions.2.2 initStore pL1⟩

/-- A store holding one inactive license (the handlers themselves never clear
`active`; a disabled license arrives from outside the modelled operations). -/
def licInactive : License :=
  ⟨1, "L1", hash_key "k1", 0, none, none, none, false, 1, 0⟩

/-- Store with only the inactive `L1`. -/
def storeInactive : Store :=
  { nextLicenseId := 2, nextActivationId := 1, licenses := [licInactive], activations := [] }

/-- Claim C8 as stated is false on the code: an unknown `license_id` and an
existing-but-inactive license yield the *same* error value — HTTP 400 with
detail "Unknown or inactive license" (`if not lic or not lic.active` raises
one combined exception) — so the two failures carry no distinguishing
machine-checkable kind. -/
theorem C8_counterexample :
    (activate storeInactive ⟨"L2", "k1", "M"⟩ 0).1 = .error errUnknownOrInactive ∧
    (activate storeInactive ⟨"L1", "k1", "M"⟩ 0).1 = .error errUnknownOrInactive ∧
    findLicense storeInactive "L2" = none ∧
    (findLicense storeInactive "L1").map License.active = some false :=
  ⟨rfl, rfl, rfl, rfl⟩

/-- Claim C8 amended: `activate` fails when no license has the requested
`license_id`, and likewise when the license exists with `active = false`, but
both failures surface as the single combined error (status 400, "Unknown or
inactive license") rather than two distinct kinds; the combined check still
precedes key verification — no hypothesis about the key is needed. -/
theorem C8_unknown_or_inactive :
    (∀ (s : Store) (p : ActivateRequest) (now : Int),
      findLicense s p.license_id = none →
      activate s p now = (.error errUnknownOrInactive, s)) ∧
    (∀ (s : Store) (p : ActivateRequest) (now : Int) (lic : License),
      findLicense s p.license_id = some lic → lic.active = false →
      activate s p now = (.error errUnknownOrInactive, s)) :=
  ⟨activate_unknown, activate_inactive⟩

/-- Witness for the amended C8, with a wrong key in both requests: the
combined unknown/inactive error wins over key verification. -/
theorem C8_unknown_or_inactive_witness :
    activate storeInactive ⟨"L2", "bad", "M"⟩ 0 = (.error errUnknownOrInactive, storeInactive) ∧
    activate storeInactive ⟨"L1", "bad", "M"⟩ 0 = (.error errUnknownOrInactive, storeInactive) :=
  ⟨C8_unknown_or_inactive.1 storeInactive ⟨"L2", "bad", "M"⟩ 0 (by decide),
   C8_unknown_or_inactive.2 storeInactive ⟨"L1", "bad", "M"⟩ 0 licInactive (by decide) rfl⟩

/-- Claim C9: `admin_create_license` fails with a validation error when
`max_seats ≤ 0` or `duration_seconds < 0` and with the duplicate error when
the `license_id` already exists (each failure leaving the store unchanged);
otherwise it appends exactly one License row carrying `key_hash =
hash_key raw_key`, null `first_activation_at` and `expires_at`,
`active = true`, the given duration and seat ceiling, with zero Activation
rows referencing it, and it never touches the activation table. -/
theorem C9_create_license :
    (∀ (s : Store) (p : LicenseCreate), p.max_seats ≤ 0 →
      admin_create_license s p = (.error errMaxSeats, s)) ∧
    (∀ (s : Store) (p : LicenseCreate), ¬ p.max_seats ≤ 0 → p.duration_seconds < 0 →
      admin_create_license s p = (.error errDuration, s)) ∧
    (∀ (s : Store) (p : LicenseCreate) (l : License), ¬ p.max_seats ≤ 0 →
      ¬ p.duration_seconds < 0 → findLicense s p.license_id = some l →
      admin_create_license s p = (.error errDuplicate, s)) ∧
    (∀ (s : Store) (p : LicenseCreate), ¬ p.max_seats ≤ 0 → ¬ p.duration_seconds < 0 →
      findLicense s p.license_id = none →
      (admin_create_license s p).2.licenses = s.licenses ++ [createdLicense s p] ∧
      createdLicense s p =
        { id := s.nextLicenseId
          license_id := p.license_id
          key_hash := hash_key p.raw_key
          duration_seconds := p.duration_seconds
          first_activation_at := none
          expires_at := none
          machine_fingerprint := none
          active := true
          max_seats := p.max_seats
          used_seats := 0 } ∧
      (admin_create_license s p).2.activations = s.activations ∧
      (Reachable s →
        countActs (admin_create_license s p).2 (createdLicense s p).id = 0)) := by
  refine ⟨create_invalid_seats, create_invalid_duration, ?_, ?_⟩
  · intro s p l h1 h2 hfl
    exact create_duplicate s p h1 h2 (by simp [hfl])
  · intro s p h1 h2 hfl
    rw [create_success s p h1 h2 hfl]
    refine ⟨rfl, rfl, rfl, ?_⟩
    intro hreach
    have hwf := (storeInv_of_reachable hreach).1
    show countActs _ s.nextLicenseId = 0
    rw [countActs_create]
    exact countActs_fresh s hwf

/-- Witness for C9: both validation rejections, the duplicate rejection on
`L1`, and the successful creation of `L1` from the empty store. -/
theorem C9_create_license_witness :
    admin_create_license initStore ⟨"L", "k", 5, 0⟩ = (.error errMaxSeats, initStore) ∧
    admin_create_license initStore ⟨"L", "k", -1, 2⟩ = (.error errDuration, initStore) ∧
    admin_create_license storeL1 pL1 = (.error errDuplicate, storeL1) ∧
    ((admin_create_license initStore pL1).2.licenses =
        initStore.licenses ++ [createdLicense initStore pL1] ∧
      createdLicense initStore pL1 =
        { id := initStore.nextLicenseId
          license_id := pL1.license_id
          key_hash := hash_key pL1.raw_key
          duration_seconds := pL1.duration_seconds
          first_activation_at := none
          expires_at := none
          machine_fingerprint := none
          active := true
          max_seats := pL1.max_seats
          used_seats := 0 } ∧
      (admin_create_license initStore pL1).2.activations = initStore.activations ∧
      (Reachable initStore →
        countActs (admin_create_license initStore pL1).2 (createdLicense initStore pL1).id = 0)) :=
  ⟨C9_create_license.1 initStore ⟨"L", "k", 5, 0⟩ (by decide),
   C9_create_license.2.1 initStore ⟨"L", "k", -1, 2⟩ (by decide) (by decide),
   C9_create_license.2.2.1 storeL1 pL1 licL1 (by decide) (by decide) (by decide),
   C9_create_license.2.2.2 initStore pL1 (by decide) (by decide) (by decide)⟩

/-- Claim C10: in every reachable store each license's cached `used_seats`
column equals the derived count of its Activation rows; a freshly created
license starts the column at 0 with zero Activation rows; the
already-activated path of `activate` leaves the store unchanged; and the
seat-consuming path increments the column by exactly one while appending
exactly one Activation row. -/
theorem C10_cached_counter_agrees :
    (∀ s : Store, Reachable s → ∀ l ∈ s.licenses,
      l.used_seats = (countActs s l.id : Int)) ∧
    (∀ (s : Store) (p : LicenseCreate), Reachable s → ¬ p.max_seats ≤ 0 →
      ¬ p.duration_seconds < 0 → findLicense s p.license_id = none →
      (createdLicense s p).used_seats = 0 ∧
      countActs (admin_create_license s p).2 (createdLicense s p).id = 0) ∧
    (∀ (s : Store) (p : ActivateRequest) (now : Int) (lic : License),
      findLicense s p.license_id = some lic → lic.active = true →
      lic.key_hash = hash_key p.raw_key → expiredAt lic now = false →
      (findAct s lic.id p.machine_fingerprint).isSome →
      (activate s p now).2 = s) ∧
    (∀ (s : Store) (p : ActivateRequest) (now : Int) (lic : License),
      Reachable s →
      findLicense s p.license_id = some lic → lic.active = true →
      lic.key_hash = hash_key p.raw_key → expiredAt lic now = false →
      findAct s lic.id p.machine_fingerprint = none →
      ¬ lic.max_seats ≤ (countActs s lic.id : Int) →
      ∃ lic', findLicense (activate s p now).2 p.license_id = some lic' ∧
        lic'.used_seats = lic.used_seats + 1 ∧
        (activate s p now).2.activations.length = s.activations.length + 1) := by
  refine ⟨?_, ?_, ?_, ?_⟩
  · intro s hs l hl
    exact ((storeInv_of_reachable hs).2 l hl).2.1
  · intro s p hreach h1 h2 hfl
    refine ⟨rfl, ?_⟩
    rw [create_success s p h1 h2 hfl]
    show countActs _ s.nextLicenseId = 0
    rw [countActs_create]
    exact countActs_fresh s (storeInv_of_reachable hreach).1
  · intro s p now lic h ha hk he hex
    rw [activate_already s p now lic h ha hk he hex]
  · intro s p now lic hreach h ha hk he hex hroom
    have hinv := storeInv_of_reachable hreach
    have hmem : lic ∈ s.licenses := findLicense_mem h
    have hcached : lic.used_seats = (countActs s lic.id : Int) := (hinv.2 lic hmem).2.1
    rw [activate_new_seat s p now lic h ha hk he hex hroom]
    refine ⟨consumeSeatUpdate lic p.machine_fingerprint (countActs s lic.id) now,
      findLicense_newSeatStore s p now lic hinv h, ?_, ?_⟩
    · obtain ⟨_, _, _, _, _, _, _, h2used⟩ :=
        consumeSeatUpdate_fields lic p.machine_fingerprint (countActs s lic.id) now
      rw [h2used, hcached]
    · show (s.activations ++ [_]).length = s.activations.length + 1
      rw [List.length_append, List.length_singleton]

/-- Witness for C10: the cached counter of `L1` equals the derived count 2 in
the doubly activated store; creating `L1` starts both at 0; machine `A`'s
repeat changes nothing; machine `B`'s activation raises the counter from 1 to
2 while appending the second Activation row. -/
theorem C10_cached_counter_agrees_witness :
    licAB.used_seats = (countActs storeAB 1 : Int) ∧
    ((createdLicense initStore pL1).used_seats = 0 ∧
      countActs (admin_create_license initStore pL1).2 (createdLicense initStore pL1).id = 0) ∧
    (activate storeAB reqA 400).2 = storeAB ∧
    (∃ lic', findLicense (activate storeA reqB 200).2 "L1" = some lic' ∧
      lic'.used_seats = licA.used_seats + 1 ∧
      (activate storeA reqB 200).2.activations.length = storeA.activations.length + 1) :=
  ⟨C10_cached_counter_agrees.1 storeAB reachable_storeAB licAB (by decide),
   C10_cached_counter_agrees.2.1 initStore pL1 .init (by decide) (by decide) (by decide),
   C10_cached_counter_agrees.2.2.1 storeAB reqA 400 licAB (by decide) (by decide)
     (by decide) (by decide) (by decide),
   C10_cached_counter_agrees.2.2.2 storeA reqB 200 licA reachable_storeA (by decide)
     (by decide) (by decide) (by decide) (by decide) (by decide)⟩

end LicenseServer
